import Mathlib

/-!
Shallow embedding of `backend/report_type/detailed_report/detailed_report.py`
(class `DetailedReport`), the hierarchical subtopic research orchestrator.

Modelling conventions:
* The external research engine (`GPTResearcher` and its capabilities) is an
  opaque collaborator; it is represented by a record of pure functions
  (`Engine`).  Each capability's output is an arbitrary function of the
  arguments the source passes to it.
* Python `set` objects become `Finset String`; `list(set(xs))` becomes
  `dedupList xs` (CPython's iteration order over a set is unspecified, so only
  the underlying set of elements is meaningful; `List.dedup` is used as a
  canonical representative).
* Python object attributes that `__init__` never assigns are modelled as
  `Option` fields holding `none`; reading such a field raises
  `AttributeError`, modelled with `Except PyErr`.
* Engine calls that the claims talk about are instrumented with an `Event`
  trace so that statements like "the planner is never invoked" or "the corpus
  argument passed to the lookup" are directly expressible.
-/

namespace DetailedReport

/-- A header record extracted from Markdown-like prose: the dicts produced by
`extract_headers`, read via `header.get("text", "")`. -/
structure Header where
  level : Nat
  text : String
deriving DecidableEq

/-- One entry of `self.existing_headers`: the dict
`{"subtopic task": ..., "headers": [...]}` appended by
`_get_subtopic_report` (the source's dict key contains a space). -/
structure HeaderEntry where
  subtopic_task : String
  headers : List Header
deriving DecidableEq

/-- A subtopic dict `{"task": ...}` as built by `_get_all_subtopics` and
consumed by `_get_subtopic_report` via `subtopic.get("task")`. -/
structure Subtopic where
  task : String
deriving DecidableEq

/-- The structured result of the engine's `get_subtopics` capability: an
object carrying a `subtopics` attribute, each element carrying a `task`.
The output type of `get_subtopics` is not under `src/`; per the spec's
interface table it is a structured subtopic list or null/empty, modelled as
`Option SubtopicsData` with a possibly empty list. -/
structure SubtopicsData where
  subtopics : List Subtopic
deriving DecidableEq

/-- A Python runtime error raised by the embedded code: reading an attribute
that was never assigned. -/
inductive PyErr where
  | attributeError (name : String)
deriving DecidableEq

/-- Reading a Python attribute: a field that `__init__` (or any earlier
statement) never assigned is `none`, and reading it raises `AttributeError`. -/
def getAttr {α : Type} (name : String) : Option α → Except PyErr α
  | none => .error (.attributeError name)
  | some a => .ok a

/-- Instrumentation: the engine calls the claims reason about, in program
order.  `get_similar` records the corpus argument passed to
`get_similar_written_contents_by_draft_section_titles`; `write_report_call`
records the arguments passed to `write_report` together with its result. -/
inductive Event where
  | conduct_research_root
  | get_subtopics
  | write_introduction
  | conduct_research_sub (task : String)
  | get_similar (task : String) (titles : List String) (corpus : List String)
  | write_report_call (task : String) (existing : List HeaderEntry)
      (relevant : List String) (result : String)
deriving DecidableEq

/-- Modelled from the spec: a `GPTResearcher` research session.  The
constructor of `GPTResearcher` is not under `src/`; per the spec (§4.2 step 1)
the session inherits query domains, report source, tone, source URLs, the
parent query, and the visited-URL set "read from ledger at call time — a
snapshot, not a live reference", so the session carries its own copy of the
visited-URL set rather than an alias of the ledger's. -/
structure Session where
  query : String
  report_type : String
  report_source : String
  query_domains : List String
  source_urls : List String
  tone : String
  parent_query : String
  visited_urls : Finset String
  context : List String
deriving DecidableEq

/-- The constructor arguments `DetailedReport.__init__` stores on `self`
(the ones the orchestration path reads). -/
structure DRConfig where
  query : String
  report_type : String
  report_source : String
  source_urls : List String
  query_domains : List String
  tone : String
  subtopics : List Subtopic
deriving DecidableEq

/-- The mutable attribute state of a `DetailedReport` object.  The four
ledger attributes are `Option`s because `__init__` (lines 29-77) assigns
none of them; they only come into existence when some later statement
assigns them.  `researcher_context`/`researcher_visited_urls` model the root
session's `self.gpt_researcher.context` / `.visited_urls`. -/
structure DRState where
  global_context : Option (List String)
  global_urls : Option (Finset String)
  global_written_sections : Option (List String)
  existing_headers : Option (List HeaderEntry)
  researcher_context : List String
  researcher_visited_urls : Finset String
deriving DecidableEq

/-- The result of `DetailedReport.run`: the bypass path returns the raw
`(subtopic_reports, subtopics_report_body)` tuple from
`_generate_subtopic_reports`; the planned path returns the assembled report
string. -/
inductive RunResult where
  | bypass (reports : List (Subtopic × String)) (body : String)
  | assembled (report : String)
deriving DecidableEq

/-- The external research engine, as an oracle: each capability's output is
an arbitrary pure function of the arguments the source passes to it
(the spec's §6 interface table).  `sub_research` maps a subtopic task, the
session's visited-URL seed and its seeded context to the session's
`(context, visited_urls)` after `conduct_research`; `root_research` is the
root session's `(context, visited_urls)` after the initial broad pass. -/
structure Engine where
  root_research : List String × Finset String
  get_subtopics : Option SubtopicsData
  write_introduction : String
  sub_research : String → Finset String → List String → List String × Finset String
  get_draft_section_titles : String → String
  extract_headers : String → List Header
  extract_sections : String → List String
  get_similar : String → List String → List String → List String
  write_report : String → List HeaderEntry → List String → String
  table_of_contents : String → String
  write_report_conclusion : String → String
  add_references : String → Finset String → String

/-- Python `list(set(xs))`: deduplicate by exact text equality.  CPython's
set iteration order is unspecified; `List.dedup` is the canonical
representative, and only its set of elements is ever relevant. -/
def dedupList (xs : List String) : List String := xs.dedup

/-- `DetailedReport.__init__` (lines 29-77): stores the caller's arguments on
`self` and constructs the root `GPTResearcher` with `report_type` hardcoded
to `"research_report"` (line 57).  The caller's `report_type` argument is
stored in `self.report_type` (line 30) and forwarded to no session.  Note
that none of `global_context`, `global_urls`, `global_written_sections`,
`existing_headers` is assigned here. -/
def detailedReportInit (query report_type report_source : String)
    (source_urls query_domains : List String) (tone : String)
    (subtopics : List Subtopic) : DRConfig × Session :=
  ({ query := query, report_type := report_type, report_source := report_source,
     source_urls := source_urls, query_domains := query_domains, tone := tone,
     subtopics := subtopics },
   { query := query, report_type := "research_report", report_source := report_source,
     query_domains := query_domains, source_urls := source_urls, tone := tone,
     parent_query := "", visited_urls := ∅, context := [] })

/-- The attribute state of a `DetailedReport` object right after `__init__`:
the four ledger attributes were never assigned (`none`); the root session
starts with empty context and visited URLs. -/
def initState : DRState :=
  { global_context := none, global_urls := none,
    global_written_sections := none, existing_headers := none,
    researcher_context := [], researcher_visited_urls := ∅ }

/-- `_get_subtopic_report` lines 148-163: the fresh subtopic session, with
`report_type="subtopic_report"` hardcoded (line 151), scoped to the subtopic
task, inheriting root config and seeded with the given visited-URL set. -/
def mkSubtopicAssistant (cfg : DRConfig) (task : String) (gurls : Finset String) : Session :=
  { query := task, report_type := "subtopic_report", report_source := cfg.report_source,
    query_domains := cfg.query_domains, source_urls := cfg.source_urls,
    tone := cfg.tone, parent_query := cfg.query, visited_urls := gurls, context := [] }

/-- `DetailedReport._get_all_subtopics` (lines 122-132).  Returns the built
subtopic list together with a flag recording whether the diagnostic
(`print(f"Unexpected subtopics data format: ...")`) was emitted.  The Python
truthiness test `if subtopics_data and subtopics_data.subtopics` is false for
`None` and for an empty subtopic list. -/
def _get_all_subtopics (subtopics_data : Option SubtopicsData) : List Subtopic × Bool :=
  match subtopics_data with
  | none => ([], true)
  | some d =>
    if d.subtopics.isEmpty then ([], true)
    else (d.subtopics.map (fun s => { task := s.task }), false)

/-- `DetailedReport._get_subtopic_report` (lines 146-192), translated
statement by statement.  Attribute reads of the never-initialised ledger
fields go through `getAttr`; the order of the reads follows the source:
`self.global_urls` is read while building the `GPTResearcher` kwargs
(line 157), `self.global_context` at line 165, `self.global_written_sections`
at line 178, `self.existing_headers` at line 181. -/
def _get_subtopic_report (e : Engine) (cfg : DRConfig) (st : DRState) (sub : Subtopic) :
    Except PyErr ((Subtopic × String) × DRState × List Event) :=
  match st.global_urls with
  | none => .error (.attributeError "global_urls")
  | some gurls =>
    match st.global_context with
    | none => .error (.attributeError "global_context")
    | some gctx =>
      -- lines 148-163 construct the assistant; line 165 seeds its context
      -- with `list(set(self.global_context))`; line 166 runs the research.
      let assistant0 := { mkSubtopicAssistant cfg sub.task gurls with context := dedupList gctx }
      let researched := e.sub_research sub.task assistant0.visited_urls assistant0.context
      let assistant := { assistant0 with context := researched.1, visited_urls := researched.2 }
      -- lines 168-175: draft titles (already a string in this model, so the
      -- `str(...)` coercion at lines 170-171 is the identity), then header
      -- extraction and the text projection `header.get("text", "")`.
      let draft_section_titles := e.get_draft_section_titles sub.task
      let parse_draft_section_titles := e.extract_headers draft_section_titles
      let titlesText := parse_draft_section_titles.map Header.text
      match st.global_written_sections with
      | none => .error (.attributeError "global_written_sections")
      | some gws =>
        -- lines 177-179: dedup-hint lookup against the written-section corpus.
        let relevant_contents := e.get_similar sub.task titlesText gws
        match st.existing_headers with
        | none => .error (.attributeError "existing_headers")
        | some eh =>
          -- line 181: generate the subtopic report body.
          let subtopic_report := e.write_report sub.task eh relevant_contents
          -- lines 183-190: unconditional ledger updates.
          let st' := { st with
            global_written_sections := some (gws ++ e.extract_sections subtopic_report),
            global_context := some (dedupList assistant.context),
            global_urls := some (gurls ∪ assistant.visited_urls),
            existing_headers := some
              (eh ++ [⟨sub.task, e.extract_headers subtopic_report⟩]) }
          .ok ((sub, subtopic_report), st',
            [Event.conduct_research_sub sub.task,
             Event.get_similar sub.task titlesText gws,
             Event.write_report_call sub.task eh relevant_contents subtopic_report])

/-- `DetailedReport._generate_subtopic_reports` (lines 134-144): the
sequential loop over the subtopics.  A result with an empty `report` string
(Python-falsy) is appended neither to `subtopic_reports` nor to the body;
the body contribution of a successful result is
`f"\n\n\n{result['report']}"`, i.e. three newline characters followed by the
report. -/
def _generate_subtopic_reports (e : Engine) (cfg : DRConfig) (st : DRState) :
    List Subtopic → Except PyErr ((List (Subtopic × String) × String) × DRState × List Event)
  | [] => .ok (([], ""), st, [])
  | sub :: rest =>
    match _get_subtopic_report e cfg st sub with
    | .error err => .error err
    | .ok ((topic, report), st1, evs1) =>
      match _generate_subtopic_reports e cfg st1 rest with
      | .error err => .error err
      | .ok ((reports, body), st2, evs2) =>
        if report = "" then .ok ((reports, body), st2, evs1 ++ evs2)
        else .ok (((topic, report) :: reports, "\n\n\n" ++ report ++ body), st2, evs1 ++ evs2)

/-- `DetailedReport._construct_detailed_report` (lines 194-200). -/
def _construct_detailed_report (e : Engine) (introduction report_body : String)
    (visited : Finset String) : String :=
  let toc := e.table_of_contents report_body
  let conclusion := e.write_report_conclusion report_body
  let conclusion_with_references := e.add_references conclusion visited
  introduction ++ "\n\n" ++ toc ++ "\n\n" ++ report_body ++ "\n\n" ++ conclusion_with_references

/-- `DetailedReport.run` (lines 100-115).  When the caller supplied a
non-empty subtopic list, the method returns the raw pair produced by
`_generate_subtopic_reports` (line 107).  Otherwise it performs
`_initial_research` (lines 117-120: root research, then
`self.global_context = self.gpt_researcher.context` and
`self.global_urls = self.gpt_researcher.visited_urls`), plans subtopics,
writes the introduction, runs the loop, merges `self.global_urls` into the
root session's visited URLs (line 113) and assembles the report.

Aliasing note: in CPython, line 120 makes `self.global_urls` an alias of the
root session's set, so the in-place `update`s at line 185 also grow the root
session's set and line 113 is a no-op on the shared object.  This model keeps
the two fields separate; since nothing reads `researcher_visited_urls`
between lines 120 and 113 and `global_urls` only grows by unions of
supersets, the explicit union at line 113 yields the same final values for
both fields as the aliased execution. -/
def run (e : Engine) (cfg : DRConfig) (st : DRState) :
    Except PyErr (RunResult × DRState × List Event) :=
  if cfg.subtopics.isEmpty then
    -- planned path
    let st1 := { st with
      researcher_context := e.root_research.1,
      researcher_visited_urls := e.root_research.2,
      global_context := some e.root_research.1,
      global_urls := some e.root_research.2 }
    let subtopics := (_get_all_subtopics e.get_subtopics).1
    let introduction := e.write_introduction
    match _generate_subtopic_reports e cfg st1 subtopics with
    | .error err => .error err
    | .ok ((_, report_body), st2, evs) =>
      match st2.global_urls with
      | none => .error (.attributeError "global_urls")
      | some gu =>
        let st3 := { st2 with researcher_visited_urls := st2.researcher_visited_urls ∪ gu }
        let report := _construct_detailed_report e introduction report_body
          st3.researcher_visited_urls
        .ok (.assembled report, st3,
          Event.conduct_research_root :: Event.get_subtopics ::
            Event.write_introduction :: evs)
  else
    -- bypass path (line 105-107)
    match _generate_subtopic_reports e cfg st cfg.subtopics with
    | .error err => .error err
    | .ok ((reports, body), st', evs) => .ok (.bypass reports body, st', evs)

instance instDecEqExcept {ε α : Type} [DecidableEq ε] [DecidableEq α] :
    DecidableEq (Except ε α) := fun x y =>
  match x, y with
  | .error a, .error b =>
    if h : a = b then .isTrue (by rw [h]) else .isFalse (fun hc => h (Except.error.inj hc))
  | .ok a, .ok b =>
    if h : a = b then .isTrue (by rw [h]) else .isFalse (fun hc => h (Except.ok.inj hc))
  | .error _, .ok _ => .isFalse (fun hc => Except.noConfusion hc)
  | .ok _, .error _ => .isFalse (fun hc => Except.noConfusion hc)

/-! Named abbreviations for the sub-expressions of `_get_subtopic_report`.
They exist so that lemmas can name the pieces of one subtopic run; the
lemma `get_subtopic_report_eq` proves that on an initialised state the
translation above unfolds to exactly these. -/

/-- The subtopic session's `(context, visited_urls)` after
`conduct_research`, given the ledger values read at call time. -/
def sessionAfter (e : Engine) (task : String) (u : Finset String) (c : List String) :
    List String × Finset String :=
  e.sub_research task u (dedupList c)

/-- The draft section title texts for a subtopic (lines 168-175). -/
def draftTitleTexts (e : Engine) (task : String) : List String :=
  (e.extract_headers (e.get_draft_section_titles task)).map Header.text

/-- The dedup-hint lookup result for a subtopic against corpus `w`
(lines 177-179). -/
def relevantFor (e : Engine) (task : String) (w : List String) : List String :=
  e.get_similar task (draftTitleTexts e task) w

/-- The subtopic report body produced at line 181, given the header history
`hs` and corpus `w` read from the ledger. -/
def reportFor (e : Engine) (task : String) (hs : List HeaderEntry) (w : List String) : String :=
  e.write_report task hs (relevantFor e task w)

/-- The ledger state after one subtopic run (lines 183-190), given the
values `c`, `u`, `w`, `hs` the four ledger attributes held before the run. -/
def stepState (e : Engine) (st : DRState) (task : String) (c : List String)
    (u : Finset String) (w : List String) (hs : List HeaderEntry) : DRState :=
  { st with
    global_written_sections := some (w ++ e.extract_sections (reportFor e task hs w)),
    global_context := some (dedupList (sessionAfter e task u c).1),
    global_urls := some (u ∪ (sessionAfter e task u c).2),
    existing_headers := some (hs ++ [⟨task, e.extract_headers (reportFor e task hs w)⟩]) }

/-- The events emitted by one subtopic run. -/
def stepEvents (e : Engine) (task : String) (w : List String) (hs : List HeaderEntry) :
    List Event :=
  [Event.conduct_research_sub task,
   Event.get_similar task (draftTitleTexts e task) w,
   Event.write_report_call task hs (relevantFor e task w) (reportFor e task hs w)]

/-- The corpora passed to the dedup-hint lookups
(`get_similar_written_contents_by_draft_section_titles`) in a trace, in
call order. -/
def simCorpora (evs : List Event) : List (List String) :=
  evs.filterMap fun ev =>
    match ev with
    | .get_similar _ _ corpus => some corpus
    | _ => none

/-- The report bodies returned by the `write_report` calls in a trace, in
call order. -/
def runReports (evs : List Event) : List String :=
  evs.filterMap fun ev =>
    match ev with
    | .write_report_call _ _ _ result => some result
    | _ => none

/-- The spec-side shape of the concatenated body: each successful report
preceded by exactly three newline characters (the source's
`f"\n\n\n{result['report']}"`). -/
def bodyOfReports : List (Subtopic × String) → String
  | [] => ""
  | r :: rest => "\n\n\n" ++ r.2 ++ bodyOfReports rest

/-- The sequence of corpora seen by successive lookups when the corpus
starts at `w` and run `k` appends its extracted sections `ws[k]`. -/
def corporaFrom (w : List String) : List (List String) → List (List String)
  | [] => []
  | secs :: rest => w :: corporaFrom (w ++ secs) rest

/-- Modelled from the spec: the normalisation of a subtopic task text used
by the spec's uniqueness statement ("unique by normalized task text
(case/whitespace-insensitive)"); no code under `src/` performs any such
normalisation. -/
def normalizeTask (s : String) : String :=
  String.mk ((s.data.filter (fun ch => ¬ ch.isWhitespace)).map Char.toLower)

/-! Concrete fixtures used to evaluate the embedding at specific inputs. -/

/-- A small concrete engine. -/
def testEngine : Engine :=
  { root_research := (["c0"], {"u0"}),
    get_subtopics := some ⟨[⟨"T1"⟩]⟩,
    write_introduction := "INTRO",
    sub_research := fun task u c => (c ++ ["ctx-" ++ task], u ∪ {"url-" ++ task}),
    get_draft_section_titles := fun task => "# " ++ task,
    extract_headers := fun s => if s = "" then [] else [⟨1, s⟩],
    extract_sections := fun s => if s = "" then [] else ["sec-" ++ s],
    get_similar := fun _ _ corpus => corpus,
    write_report := fun task _ _ => "R-" ++ task,
    table_of_contents := fun _ => "TOC",
    write_report_conclusion := fun _ => "CONC",
    add_references := fun s _ => s ++ " REFS" }

/-- `testEngine`, but `write_report` always returns the empty string
(the spec's §6 table: `write_report` "may return empty string on
failure"). -/
def emptyReportEngine : Engine :=
  { testEngine with write_report := fun _ _ _ => "" }

/-- A `DetailedReport` attribute state whose four ledger attributes are all
initialised to empty collections (the state the spec's lifecycle sentence
describes). -/
def fullState : DRState :=
  { global_context := some [], global_urls := some ∅,
    global_written_sections := some [], existing_headers := some [],
    researcher_context := [], researcher_visited_urls := ∅ }

/-- A base configuration with no caller-supplied subtopics. -/
def testCfg : DRConfig :=
  { query := "root", report_type := "detailed_report", report_source := "web",
    source_urls := [], query_domains := [], tone := "objective", subtopics := [] }

/-- The base configuration with caller-supplied subtopics, as on the bypass
path. -/
def testCfgAB : DRConfig :=
  { testCfg with subtopics := [⟨"A"⟩, ⟨"B"⟩] }

/-- The event trace of the two-subtopic run of `testEngine` on tasks
`"A"`, `"B"` from `fullState`. -/
def eventsAB : List Event :=
  [Event.conduct_research_sub "A",
   Event.get_similar "A" ["# A"] [],
   Event.write_report_call "A" [] [] "R-A",
   Event.conduct_research_sub "B",
   Event.get_similar "B" ["# B"] ["sec-R-A"],
   Event.write_report_call "B" [⟨"A", [⟨1, "R-A"⟩]⟩] ["sec-R-A"] "R-B"]

/-- The ledger state after the empty-report run of `emptyReportEngine` on
subtopic `"A"` from `fullState`. -/
def afterEmptyA : DRState :=
  { global_context := some ["ctx-A"], global_urls := some {"url-A"},
    global_written_sections := some [], existing_headers := some [⟨"A", []⟩],
    researcher_context := [], researcher_visited_urls := ∅ }

/-- The event trace of that empty-report run. -/
def emptyAEvents : List Event :=
  [Event.conduct_research_sub "A",
   Event.get_similar "A" ["# A"] [],
   Event.write_report_call "A" [] [] ""]

/-- On a state whose four ledger attributes are all initialised,
`_get_subtopic_report` succeeds and its pieces are the named abbreviations
above. -/
theorem get_subtopic_report_eq (e : Engine) (cfg : DRConfig) (st : DRState) (sub : Subtopic)
    (c : List String) (u : Finset String) (w : List String) (hs : List HeaderEntry)
    (hc : st.global_context = some c) (hu : st.global_urls = some u)
    (hw : st.global_written_sections = some w) (hh : st.existing_headers = some hs) :
    _get_subtopic_report e cfg st sub =
      .ok ((sub, reportFor e sub.task hs w), stepState e st sub.task c u w hs,
        stepEvents e sub.task w hs) := by
  unfold _get_subtopic_report
  rw [hu, hc, hw, hh]
  rfl

theorem simCorpora_append (a b : List Event) :
    simCorpora (a ++ b) = simCorpora a ++ simCorpora b :=
  List.filterMap_append a b _

theorem runReports_append (a b : List Event) :
    runReports (a ++ b) = runReports a ++ runReports b :=
  List.filterMap_append a b _

theorem corporaFrom_length : ∀ (ws : List (List String)) (w : List String),
    (corporaFrom w ws).length = ws.length
  | [], _ => rfl
  | _ :: rest, w => by simp [corporaFrom, corporaFrom_length rest]

theorem corporaFrom_get : ∀ (ws : List (List String)) (w : List String) (j : Nat)
    (h : j < (corporaFrom w ws).length),
    (corporaFrom w ws)[j] = w ++ (ws.take j).flatten := by
  intro ws
  induction ws with
  | nil => intro w j h; simp [corporaFrom] at h
  | cons secs rest ih =>
    intro w j h
    match j with
    | 0 => simp [corporaFrom]
    | j + 1 =>
      have h' : j < (corporaFrom (w ++ secs) rest).length := by
        simpa [corporaFrom] using h
      have := ih (w ++ secs) j h'
      simp [corporaFrom, this, List.append_assoc]

/-- Master lemma: on an initialised ledger state the subtopic loop succeeds,
and the shape of its outputs.  The conjuncts record: the body is the
successful reports each preceded by three newlines; the successful topics
are a sublist of the input (planner order preserved); every collected report
is non-empty; `existing_headers` gains exactly one entry per input subtopic
in order, empty reports included; the trace contains no root-research,
planner or introduction events; and the lookup corpora form the chain
starting at `w` where each run appends its extracted sections. -/
theorem generate_spec (e : Engine) (cfg : DRConfig) :
    ∀ (subs : List Subtopic) (st : DRState) (c : List String) (u : Finset String)
      (w : List String) (hs : List HeaderEntry),
      st.global_context = some c → st.global_urls = some u →
      st.global_written_sections = some w → st.existing_headers = some hs →
      ∃ reports body st' evs,
        _generate_subtopic_reports e cfg st subs = .ok ((reports, body), st', evs) ∧
        body = bodyOfReports reports ∧
        (reports.map Prod.fst).Sublist subs ∧
        (∀ r ∈ reports, r.2 ≠ "") ∧
        (∃ hs', st'.existing_headers = some hs' ∧
          hs'.map HeaderEntry.subtopic_task
            = hs.map HeaderEntry.subtopic_task ++ subs.map Subtopic.task) ∧
        (∀ ev ∈ evs, ev ≠ Event.conduct_research_root ∧ ev ≠ Event.get_subtopics ∧
          ev ≠ Event.write_introduction) ∧
        simCorpora evs = corporaFrom w ((runReports evs).map e.extract_sections) ∧
        (runReports evs).length = subs.length := by
  intro subs
  induction subs with
  | nil =>
    intro st c u w hs hc hu hw hh
    exact ⟨[], "", st, [], rfl, rfl, List.Sublist.refl _, by simp,
      ⟨hs, hh, by simp⟩, by simp, rfl, rfl⟩
  | cons sub rest ih =>
    intro st c u w hs hc hu hw hh
    have hstep := get_subtopic_report_eq e cfg st sub c u w hs hc hu hw hh
    obtain ⟨reports, body, st', evs, hrec, hbody, hsub, hne, ⟨hs'', hhd, hmap⟩,
        hevents, hsim, hlen⟩ :=
      ih (stepState e st sub.task c u w hs)
        (dedupList (sessionAfter e sub.task u c).1)
        (u ∪ (sessionAfter e sub.task u c).2)
        (w ++ e.extract_sections (reportFor e sub.task hs w))
        (hs ++ [⟨sub.task, e.extract_headers (reportFor e sub.task hs w)⟩])
        (by rfl) (by rfl) (by rfl) (by rfl)
    have hstepev : ∀ ev ∈ stepEvents e sub.task w hs,
        ev ≠ Event.conduct_research_root ∧ ev ≠ Event.get_subtopics ∧
        ev ≠ Event.write_introduction := by
      intro ev hev
      simp only [stepEvents, List.mem_cons, List.not_mem_nil, or_false] at hev
      rcases hev with h | h | h <;> subst h <;> exact ⟨by simp, by simp, by simp⟩
    have hevboth : ∀ ev ∈ stepEvents e sub.task w hs ++ evs,
        ev ≠ Event.conduct_research_root ∧ ev ≠ Event.get_subtopics ∧
        ev ≠ Event.write_introduction := by
      intro ev hev
      rcases List.mem_append.mp hev with h | h
      · exact hstepev ev h
      · exact hevents ev h
    have hmap' : hs''.map HeaderEntry.subtopic_task
        = hs.map HeaderEntry.subtopic_task ++ (sub :: rest).map Subtopic.task := by
      simpa [List.map_append, List.append_assoc] using hmap
    have hsim' : simCorpora (stepEvents e sub.task w hs ++ evs)
        = corporaFrom w
            ((runReports (stepEvents e sub.task w hs ++ evs)).map e.extract_sections) := by
      rw [simCorpora_append, runReports_append]
      have h1 : simCorpora (stepEvents e sub.task w hs) = [w] := rfl
      have h2 : runReports (stepEvents e sub.task w hs) = [reportFor e sub.task hs w] := rfl
      rw [h1, h2, hsim]
      simp [corporaFrom]
    have hlen' : (runReports (stepEvents e sub.task w hs ++ evs)).length
        = (sub :: rest).length := by
      rw [runReports_append]
      have h2 : runReports (stepEvents e sub.task w hs) = [reportFor e sub.task hs w] := rfl
      simp [h2, hlen]
    by_cases hrep : reportFor e sub.task hs w = ""
    · refine ⟨reports, body, st', stepEvents e sub.task w hs ++ evs, ?_, hbody,
        hsub.cons sub, hne, ⟨hs'', hhd, hmap'⟩, hevboth, hsim', hlen'⟩
      simp [_generate_subtopic_reports, hstep, hrec, hrep]
    · refine ⟨(sub, reportFor e sub.task hs w) :: reports,
        "\n\n\n" ++ reportFor e sub.task hs w ++ body, st',
        stepEvents e sub.task w hs ++ evs, ?_, ?_, hsub.cons₂ sub, ?_,
        ⟨hs'', hhd, hmap'⟩, hevboth, hsim', hlen'⟩
      · simp [_generate_subtopic_reports, hstep, hrec, hrep]
      · simp [bodyOfReports, hbody]
      · intro r hr
        rcases List.mem_cons.mp hr with h | h
        · subst h; exact hrep
        · exact hne r h

/-! Claim theorems. -/

/-- C8: for every subtopic-discovery result from the external engine that
contains no usable subtopics (a null result, or a result whose subtopic list
is empty), `_get_all_subtopics` logs the diagnostic and returns the empty
sequence; no exception is raised. -/
theorem C8_planner_degrades (d : Option SubtopicsData)
    (h : d = none ∨ ∃ x, d = some x ∧ x.subtopics = []) :
    _get_all_subtopics d = ([], true) := by
  rcases h with h | ⟨x, hx, hempty⟩
  · rw [h]; rfl
  · rw [hx]
    simp [_get_all_subtopics, hempty]

/-- C8 witness: the null result concretely degrades to the empty sequence
with the diagnostic logged. -/
theorem C8_planner_degrades_witness :
    ((none : Option SubtopicsData) = none ∨
      ∃ x, (none : Option SubtopicsData) = some x ∧ x.subtopics = []) ∧
    _get_all_subtopics none = ([], true) :=
  ⟨Or.inl rfl, C8_planner_degrades none (Or.inl rfl)⟩

/-- C9 counterexample: the engine output `[{task := "A"}, {task := "a "}]`
makes the planner return two subtopics whose task texts are equal up to case
and whitespace (both normalise to `"a"`), so the planner's output is not
unique by normalised task text. -/
theorem C9_dedup_counterexample :
    (_get_all_subtopics (some ⟨[⟨"A"⟩, ⟨"a "⟩]⟩)).1 = [⟨"A"⟩, ⟨"a "⟩] ∧
    normalizeTask "A" = normalizeTask "a " ∧
    "A" ≠ "a " := by
  refine ⟨rfl, ?_, by decide⟩
  decide

/-- C9 (amended): the planner preserves the insertion order of the engine's
subtopic-discovery output without re-sorting, but applies no deduplication:
its output task texts are exactly the engine's task texts, in order and with
multiplicity (so duplicates, even exact ones, are retained). -/
theorem C9_order_amended (d : SubtopicsData) (hne : d.subtopics ≠ []) :
    (_get_all_subtopics (some d)).1.map Subtopic.task = d.subtopics.map Subtopic.task := by
  have hemp : d.subtopics.isEmpty = false := by
    cases hd : d.subtopics with
    | nil => exact absurd hd hne
    | cons a l => rfl
  simp [_get_all_subtopics, hemp, List.map_map, Function.comp]

/-- C9 witness: the amended order statement at a concrete engine output. -/
theorem C9_order_amended_witness :
    (⟨[⟨"X"⟩, ⟨"Y"⟩]⟩ : SubtopicsData).subtopics ≠ [] ∧
    (_get_all_subtopics (some ⟨[⟨"X"⟩, ⟨"Y"⟩]⟩)).1.map Subtopic.task = ["X", "Y"] :=
  ⟨by decide, C9_order_amended ⟨[⟨"X"⟩, ⟨"Y"⟩]⟩ (by decide)⟩

/-- C10: for every `DetailedReport` construction, the root research session
is created with report type `"research_report"` and every subtopic session
with `"subtopic_report"`, regardless of the `report_type` argument supplied
by the caller; the caller's value is stored (in the config) but forwarded to
neither session. -/
theorem C10_report_types (q rt rs : String) (su qd : List String) (tn : String)
    (subs : List Subtopic) (task : String) (gurls : Finset String) :
    ((detailedReportInit q rt rs su qd tn subs).2).report_type = "research_report" ∧
    ((detailedReportInit q rt rs su qd tn subs).1).report_type = rt ∧
    (mkSubtopicAssistant (detailedReportInit q rt rs su qd tn subs).1 task gurls).report_type
      = "subtopic_report" :=
  ⟨rfl, rfl, rfl⟩

/-- C2 is a code bug: `__init__` assigns none of the four ledger attributes,
so after construction they do not exist (are `none`), and the first subtopic
run fails with `AttributeError` rather than reading empty collections.  On
the bypass path the failure is the read of `global_urls` while constructing
the subtopic session (line 157); on the planned path `_initial_research`
assigns `global_context`/`global_urls` (non-empty, not the empty collections
the spec describes) but `global_written_sections` is still unset, so the
first run fails at its read (line 178). -/
theorem C2_uninitialized_ledger :
    initState.global_context = none ∧
    initState.global_urls = none ∧
    initState.global_written_sections = none ∧
    initState.existing_headers = none ∧
    run testEngine testCfgAB initState = .error (.attributeError "global_urls") ∧
    run testEngine testCfg initState = .error (.attributeError "global_written_sections") := by
  refine ⟨rfl, rfl, rfl, rfl, ?_, ?_⟩ <;> decide

/-- C1 counterexample: with caller-supplied subtopics and a fully initialised
state, `run` returns the raw `bypass` pair from
`_generate_subtopic_reports`, not an assembled report string, and its trace
contains no introduction call (nor root research or planner calls): the
introduction is not written at all on the bypass path. -/
theorem C1_bypass_counterexample :
    (run testEngine testCfgAB fullState).map (fun r => (r.1, r.2.2)) =
      .ok (RunResult.bypass [(⟨"A"⟩, "R-A"), (⟨"B"⟩, "R-B")] "\n\n\nR-A\n\n\nR-B",
        eventsAB) ∧
    Event.write_introduction ∉ eventsAB ∧
    Event.conduct_research_root ∉ eventsAB ∧
    Event.get_subtopics ∉ eventsAB := by
  refine ⟨by decide, by decide, by decide, by decide⟩

/-- C1 (amended): for every root task, every non-empty caller-supplied
subtopic list and every initialised state, `run` takes the bypass edge:
initial research, subtopic planning and the introduction are all skipped
(none of those engine calls occurs in the trace), and the call returns the
raw subtopic-reports/body pair from the subtopic loop rather than an
assembled report string. -/
theorem C1_bypass_amended (e : Engine) (cfg : DRConfig) (st : DRState)
    (c : List String) (u : Finset String) (w : List String) (hs : List HeaderEntry)
    (hsubs : cfg.subtopics ≠ [])
    (hc : st.global_context = some c) (hu : st.global_urls = some u)
    (hw : st.global_written_sections = some w) (hh : st.existing_headers = some hs) :
    ∃ reports body st' evs,
      run e cfg st = .ok (RunResult.bypass reports body, st', evs) ∧
      Event.conduct_research_root ∉ evs ∧
      Event.get_subtopics ∉ evs ∧
      Event.write_introduction ∉ evs := by
  obtain ⟨reports, body, st', evs, hloop, _, _, _, _, hevents, _, _⟩ :=
    generate_spec e cfg cfg.subtopics st c u w hs hc hu hw hh
  have hemp : cfg.subtopics.isEmpty = false := by
    cases hd : cfg.subtopics with
    | nil => exact absurd hd hsubs
    | cons a l => rfl
  refine ⟨reports, body, st', evs, ?_, ?_, ?_, ?_⟩
  · simp [run, hemp, hloop]
  · intro hmem; exact (hevents _ hmem).1 rfl
  · intro hmem; exact (hevents _ hmem).2.1 rfl
  · intro hmem; exact (hevents _ hmem).2.2 rfl

/-- C1 witness: the amended bypass behaviour at a concrete engine, subtopic
list and initialised state. -/
theorem C1_bypass_amended_witness :
    (testCfgAB.subtopics ≠ [] ∧ fullState.global_context = some [] ∧
     fullState.global_urls = some ∅ ∧ fullState.global_written_sections = some [] ∧
     fullState.existing_headers = some []) ∧
    (∃ reports body st' evs,
      run testEngine testCfgAB fullState = .ok (RunResult.bypass reports body, st', evs) ∧
      Event.conduct_research_root ∉ evs ∧
      Event.get_subtopics ∉ evs ∧
      Event.write_introduction ∉ evs) :=
  ⟨⟨by decide, rfl, rfl, rfl, rfl⟩,
   C1_bypass_amended testEngine testCfgAB fullState [] ∅ [] [] (by decide)
     rfl rfl rfl rfl⟩

/-- C3 counterexample: a subtopic whose `write_report` result is empty still
contributes one entry to `existing_headers`: the run returns report `""` yet
the ledger's header log has length 1 afterwards. -/
theorem C3_headers_counterexample :
    (_get_subtopic_report emptyReportEngine testCfg fullState ⟨"A"⟩).map
        (fun r => (r.1.2, r.2.1.existing_headers)) =
      .ok ("", some [⟨"A", []⟩]) ∧
    ([⟨"A", []⟩] : List HeaderEntry).length = 1 := by
  refine ⟨by decide, rfl⟩

/-- C3 (amended): after any sequence of subtopic runs in one pipeline,
`existing_headers` contains exactly one entry per subtopic run, in run
order and labeled with the subtopic's task, regardless of whether the run's
generated report body was empty: empty-report subtopics contribute one entry
too. -/
theorem C3_headers_amended (e : Engine) (cfg : DRConfig) (subs : List Subtopic)
    (st : DRState) (c : List String) (u : Finset String) (w : List String)
    (hs : List HeaderEntry)
    (hc : st.global_context = some c) (hu : st.global_urls = some u)
    (hw : st.global_written_sections = some w) (hh : st.existing_headers = some hs)
    (reports : List (Subtopic × String)) (body : String) (st' : DRState) (evs : List Event)
    (hrun : _generate_subtopic_reports e cfg st subs = .ok ((reports, body), st', evs)) :
    ∃ hs', st'.existing_headers = some hs' ∧
      hs'.map HeaderEntry.subtopic_task
        = hs.map HeaderEntry.subtopic_task ++ subs.map Subtopic.task := by
  obtain ⟨r, b, st2, evs2, hloop, _, _, _, ⟨hs'', hhd, hmap⟩, _, _, _⟩ :=
    generate_spec e cfg subs st c u w hs hc hu hw hh
  rw [hrun] at hloop
  simp only [Except.ok.injEq, Prod.mk.injEq] at hloop
  obtain ⟨⟨h1, h2⟩, h3, h4⟩ := hloop
  subst h3
  exact ⟨hs'', hhd, hmap⟩

/-- C3 witness: the amended header invariant at a concrete empty-report run:
the single (failed) subtopic `"A"` still yields exactly the header-log entry
labeled `"A"`. -/
theorem C3_headers_amended_witness :
    (fullState.global_context = some [] ∧ fullState.global_urls = some ∅ ∧
     fullState.global_written_sections = some [] ∧ fullState.existing_headers = some [] ∧
     _generate_subtopic_reports emptyReportEngine testCfg fullState [⟨"A"⟩]
       = .ok (([], ""), afterEmptyA, emptyAEvents)) ∧
    (∃ hs', afterEmptyA.existing_headers = some hs' ∧
      hs'.map HeaderEntry.subtopic_task
        = ([] : List HeaderEntry).map HeaderEntry.subtopic_task
            ++ [(⟨"A"⟩ : Subtopic)].map Subtopic.task) :=
  ⟨⟨rfl, rfl, rfl, rfl, by decide⟩,
   C3_headers_amended emptyReportEngine testCfg [⟨"A"⟩] fullState [] ∅ [] []
     rfl rfl rfl rfl [] "" afterEmptyA emptyAEvents (by decide)⟩

/-- C4 counterexample: a run with two successful subtopics produces the body
with three newline characters before each section, so consecutive sections
are separated by three newlines, not two: the two-newline concatenation
`"R-A\n\nR-B"` does not occur in the body, while the three-newline one
does. -/
theorem C4_body_counterexample :
    (_generate_subtopic_reports testEngine testCfg fullState [⟨"A"⟩, ⟨"B"⟩]).map
        (fun r => r.1) =
      .ok ([(⟨"A"⟩, "R-A"), (⟨"B"⟩, "R-B")], "\n\n\nR-A\n\n\nR-B") ∧
    ¬ ("R-A\n\nR-B".data <:+: "\n\n\nR-A\n\n\nR-B".data) ∧
    ("R-A\n\n\nR-B".data <:+: "\n\n\nR-A\n\n\nR-B".data) := by
  refine ⟨by decide, by decide, by decide⟩

/-- C4 (amended): for every run, the assembled body contains exactly the
successfully-written (non-empty) subtopic reports in planner order, each
preceded by exactly three newline characters, so consecutive sections are
separated by exactly three newlines and the body starts with three
newlines. -/
theorem C4_body_amended (e : Engine) (cfg : DRConfig) (subs : List Subtopic)
    (st : DRState) (c : List String) (u : Finset String) (w : List String)
    (hs : List HeaderEntry)
    (hc : st.global_context = some c) (hu : st.global_urls = some u)
    (hw : st.global_written_sections = some w) (hh : st.existing_headers = some hs)
    (reports : List (Subtopic × String)) (body : String) (st' : DRState) (evs : List Event)
    (hrun : _generate_subtopic_reports e cfg st subs = .ok ((reports, body), st', evs)) :
    body = bodyOfReports reports ∧
    (reports.map Prod.fst).Sublist subs ∧
    ∀ r ∈ reports, r.2 ≠ "" := by
  obtain ⟨r, b, st2, evs2, hloop, hbody, hsub, hne, _, _, _, _⟩ :=
    generate_spec e cfg subs st c u w hs hc hu hw hh
  rw [hrun] at hloop
  simp only [Except.ok.injEq, Prod.mk.injEq] at hloop
  obtain ⟨⟨h1, h2⟩, h3, h4⟩ := hloop
  subst h1; subst h2
  exact ⟨hbody, hsub, hne⟩

/-- C4 witness: the amended body shape at the concrete two-subtopic run. -/
theorem C4_body_amended_witness :
    (fullState.global_context = some [] ∧ fullState.global_urls = some ∅ ∧
     fullState.global_written_sections = some [] ∧ fullState.existing_headers = some []) ∧
    ("\n\n\nR-A\n\n\nR-B" = bodyOfReports [((⟨"A"⟩ : Subtopic), "R-A"), (⟨"B"⟩, "R-B")] ∧
     ([((⟨"A"⟩ : Subtopic), "R-A"), (⟨"B"⟩, "R-B")].map Prod.fst).Sublist
       [(⟨"A"⟩ : Subtopic), ⟨"B"⟩] ∧
     ∀ r ∈ [((⟨"A"⟩ : Subtopic), "R-A"), (⟨"B"⟩, "R-B")], r.2 ≠ "") :=
  ⟨⟨rfl, rfl, rfl, rfl⟩,
   C4_body_amended testEngine testCfg [⟨"A"⟩, ⟨"B"⟩] fullState [] ∅ [] []
     rfl rfl rfl rfl [(⟨"A"⟩, "R-A"), (⟨"B"⟩, "R-B")] "\n\n\nR-A\n\n\nR-B"
     { global_context := some ["ctx-A", "ctx-B"],
       global_urls := some {"url-A", "url-B"},
       global_written_sections := some ["sec-R-A", "sec-R-B"],
       existing_headers := some [⟨"A", [⟨1, "R-A"⟩]⟩, ⟨"B", [⟨1, "R-B"⟩]⟩],
       researcher_context := [], researcher_visited_urls := ∅ }
     eventsAB (by decide)⟩

/-- C5: in one pipeline, the corpus passed to the dedup-hint lookup of a
later subtopic run extends the corpus of every earlier run (prefix order:
monotone growth), equals the initial corpus plus all sections extracted from
the reports of all prior runs, and in particular includes every section
extracted from each earlier run's report body. -/
theorem C5_corpus_monotone (e : Engine) (cfg : DRConfig) (subs : List Subtopic)
    (st : DRState) (c : List String) (u : Finset String) (w : List String)
    (hs : List HeaderEntry)
    (hc : st.global_context = some c) (hu : st.global_urls = some u)
    (hw : st.global_written_sections = some w) (hh : st.existing_headers = some hs)
    (reports : List (Subtopic × String)) (body : String) (st' : DRState) (evs : List Event)
    (hrun : _generate_subtopic_reports e cfg st subs = .ok ((reports, body), st', evs))
    (i j : Nat) (hij : i < j)
    (hj : j < (simCorpora evs).length) (hi : i < (runReports evs).length) :
    (simCorpora evs)[i] <+: (simCorpora evs)[j] ∧
    (simCorpora evs)[j]
      = w ++ (((runReports evs).map e.extract_sections).take j).flatten ∧
    ∀ s ∈ e.extract_sections ((runReports evs)[i]), s ∈ (simCorpora evs)[j] := by
  obtain ⟨r, b, st2, evs2, hloop, _, _, _, _, _, hsim, hlen⟩ :=
    generate_spec e cfg subs st c u w hs hc hu hw hh
  rw [hrun] at hloop
  simp only [Except.ok.injEq, Prod.mk.injEq] at hloop
  obtain ⟨⟨h1, h2⟩, h3, h4⟩ := hloop
  subst h4
  have hwslen : ((runReports evs).map e.extract_sections).length
      = (runReports evs).length := List.length_map _ _
  have hi' : i < ((runReports evs).map e.extract_sections).length := by omega
  have hj' : j < ((runReports evs).map e.extract_sections).length := by
    have := corporaFrom_length ((runReports evs).map e.extract_sections) w
    rw [hsim] at hj
    omega
  have hi2 : i < (simCorpora evs).length := by omega
  have geti : (simCorpora evs)[i]
      = w ++ (((runReports evs).map e.extract_sections).take i).flatten := by
    have h := corporaFrom_get ((runReports evs).map e.extract_sections) w i
      (by rw [corporaFrom_length]; omega)
    simp only [hsim]
    exact h
  have getj : (simCorpora evs)[j]
      = w ++ (((runReports evs).map e.extract_sections).take j).flatten := by
    have h := corporaFrom_get ((runReports evs).map e.extract_sections) w j
      (by rw [corporaFrom_length]; omega)
    simp only [hsim]
    exact h
  obtain ⟨t, ht⟩ := List.take_prefix_take_left
    ((runReports evs).map e.extract_sections) (le_of_lt hij)
  refine ⟨⟨t.flatten, ?_⟩, getj, ?_⟩
  · rw [geti, getj, List.append_assoc, ← List.flatten_append, ht]
  · intro s hsmem
    rw [getj]
    refine List.mem_append.mpr (Or.inr (List.mem_flatten.mpr
      ⟨((runReports evs).map e.extract_sections)[i], ?_, ?_⟩))
    · have htake : i < (((runReports evs).map e.extract_sections).take j).length := by
        rw [List.length_take]
        omega
      have hgt : (((runReports evs).map e.extract_sections).take j)[i]
          = ((runReports evs).map e.extract_sections)[i] :=
        List.getElem_take _
      rw [← hgt]
      exact List.getElem_mem htake
    · have hmapi : ((runReports evs).map e.extract_sections)[i]
          = e.extract_sections ((runReports evs)[i]) := List.getElem_map _
      rw [hmapi]
      exact hsmem

/-- C5 witness: the monotone-corpus property at the concrete two-subtopic
run: the second lookup's corpus contains the section extracted from the
first run's report. -/
theorem C5_corpus_monotone_witness :
    (fullState.global_context = some [] ∧ fullState.global_urls = some ∅ ∧
     fullState.global_written_sections = some [] ∧ fullState.existing_headers = some [] ∧
     (0 : Nat) < 1 ∧ 1 < (simCorpora eventsAB).length ∧ 0 < (runReports eventsAB).length) ∧
    ((simCorpora eventsAB)[0] <+: (simCorpora eventsAB)[1] ∧
     (simCorpora eventsAB)[1]
       = [] ++ (((runReports eventsAB).map testEngine.extract_sections).take 1).flatten ∧
     ∀ s ∈ testEngine.extract_sections ((runReports eventsAB)[0]),
       s ∈ (simCorpora eventsAB)[1]) :=
  ⟨⟨rfl, rfl, rfl, rfl, by decide, by decide, by decide⟩,
   C5_corpus_monotone testEngine testCfg [⟨"A"⟩, ⟨"B"⟩] fullState [] ∅ [] []
     rfl rfl rfl rfl [(⟨"A"⟩, "R-A"), (⟨"B"⟩, "R-B")] "\n\n\nR-A\n\n\nR-B"
     { global_context := some ["ctx-A", "ctx-B"],
       global_urls := some {"url-A", "url-B"},
       global_written_sections := some ["sec-R-A", "sec-R-B"],
       existing_headers := some [⟨"A", [⟨1, "R-A"⟩]⟩, ⟨"B", [⟨1, "R-B"⟩]⟩],
       researcher_context := [], researcher_visited_urls := ∅ }
     eventsAB (by decide) 0 1 (by decide) (by decide) (by decide)⟩

/-- C6: if a subtopic's generated report body is empty, the loop's result on
`sub :: rest` is exactly the result of continuing with `rest` (the subtopic
is omitted from the collected results and from the body, only its events are
kept), and the ledger state handed to the continuation retains the context
snippets and visited URLs the failed attempt collected. -/
theorem C6_empty_report (e : Engine) (cfg : DRConfig) (st : DRState) (sub : Subtopic)
    (rest : List Subtopic) (c : List String) (u : Finset String) (w : List String)
    (hs : List HeaderEntry)
    (hc : st.global_context = some c) (hu : st.global_urls = some u)
    (hw : st.global_written_sections = some w) (hh : st.existing_headers = some hs)
    (hempty : reportFor e sub.task hs w = "") :
    _generate_subtopic_reports e cfg st (sub :: rest)
      = Except.map (fun r => (r.1, r.2.1, stepEvents e sub.task w hs ++ r.2.2))
          (_generate_subtopic_reports e cfg (stepState e st sub.task c u w hs) rest) ∧
    (stepState e st sub.task c u w hs).global_context
      = some (dedupList (sessionAfter e sub.task u c).1) ∧
    (stepState e st sub.task c u w hs).global_urls
      = some (u ∪ (sessionAfter e sub.task u c).2) := by
  refine ⟨?_, rfl, rfl⟩
  have hstep := get_subtopic_report_eq e cfg st sub c u w hs hc hu hw hh
  cases hrec : _generate_subtopic_reports e cfg (stepState e st sub.task c u w hs) rest with
  | error err => simp [_generate_subtopic_reports, hstep, hrec, hempty, Except.map]
  | ok val =>
    obtain ⟨⟨reports, body⟩, st2, evs2⟩ := val
    simp [_generate_subtopic_reports, hstep, hrec, hempty, Except.map]

/-- C6 witness: the empty-report omission at a concrete run: with
`emptyReportEngine` and subtopics `["A"]`, the loop result equals the
continuation on the empty tail and the post-attempt ledger holds the
attempt's context snippet and visited URL. -/
theorem C6_empty_report_witness :
    (fullState.global_context = some [] ∧ fullState.global_urls = some ∅ ∧
     fullState.global_written_sections = some [] ∧ fullState.existing_headers = some [] ∧
     reportFor emptyReportEngine "A" [] [] = "") ∧
    (_generate_subtopic_reports emptyReportEngine testCfg fullState [⟨"A"⟩]
      = Except.map (fun r => (r.1, r.2.1, stepEvents emptyReportEngine "A" [] [] ++ r.2.2))
          (_generate_subtopic_reports emptyReportEngine testCfg
            (stepState emptyReportEngine fullState "A" [] ∅ [] []) []) ∧
     (stepState emptyReportEngine fullState "A" [] ∅ [] []).global_context
       = some (dedupList (sessionAfter emptyReportEngine "A" ∅ []).1) ∧
     (stepState emptyReportEngine fullState "A" [] ∅ [] []).global_urls
       = some (∅ ∪ (sessionAfter emptyReportEngine "A" ∅ []).2)) :=
  ⟨⟨rfl, rfl, rfl, rfl, by decide⟩,
   C6_empty_report emptyReportEngine testCfg fullState ⟨"A"⟩ [] [] ∅ [] []
     rfl rfl rfl rfl (by decide)⟩

/-- C7: the fresh subtopic session receives the ledger's visited-URL set as
a call-time snapshot (its `visited_urls` field equals the value read from
the ledger), and whatever visited-URL set the session ends up with after
its research (`sub_research` is arbitrary, so this covers every possible
mutation of the session's set), the ledger's `global_urls` after the run is
exactly the old value united with the session's final set — the explicit
merge at line 185 — and is changed in no other way. -/
theorem C7_url_snapshot (e : Engine) (cfg : DRConfig) (st : DRState) (sub : Subtopic)
    (c : List String) (u : Finset String) (w : List String) (hs : List HeaderEntry)
    (hc : st.global_context = some c) (hu : st.global_urls = some u)
    (hw : st.global_written_sections = some w) (hh : st.existing_headers = some hs) :
    (mkSubtopicAssistant cfg sub.task u).visited_urls = u ∧
    _get_subtopic_report e cfg st sub
      = .ok ((sub, reportFor e sub.task hs w), stepState e st sub.task c u w hs,
          stepEvents e sub.task w hs) ∧
    (stepState e st sub.task c u w hs).global_urls
      = some (u ∪ (sessionAfter e sub.task u c).2) :=
  ⟨rfl, get_subtopic_report_eq e cfg st sub c u w hs hc hu hw hh, rfl⟩

/-- C7 witness: the snapshot-and-merge behaviour at a concrete run. -/
theorem C7_url_snapshot_witness :
    (fullState.global_context = some [] ∧ fullState.global_urls = some ∅ ∧
     fullState.global_written_sections = some [] ∧ fullState.existing_headers = some []) ∧
    ((mkSubtopicAssistant testCfg "A" ∅).visited_urls = ∅ ∧
     _get_subtopic_report testEngine testCfg fullState ⟨"A"⟩
       = .ok ((⟨"A"⟩, reportFor testEngine "A" [] []),
           stepState testEngine fullState "A" [] ∅ [] [],
           stepEvents testEngine "A" [] []) ∧
     (stepState testEngine fullState "A" [] ∅ [] []).global_urls
       = some (∅ ∪ (sessionAfter testEngine "A" ∅ []).2)) :=
  ⟨⟨rfl, rfl, rfl, rfl⟩,
   C7_url_snapshot testEngine testCfg fullState ⟨"A"⟩ [] ∅ [] [] rfl rfl rfl rfl⟩

end DetailedReport
